import Mathlib

/-!
# Verification of the Workdash-SFU soccer physics server

Shallow embedding of the authoritative soccer simulation server
(`src/services/soccer.service.ts`, `shared-physics.ts`,
`mmr.service.ts`, `config/soccer-skills.config.ts`) and proofs about it.

Numeric values are modelled by `ℚ` (the source uses IEEE doubles; every
operation we reason about here is field arithmetic, so `ℚ` is an exact
model of the algebra the code performs).  The only non-rational
operations in the relevant code are `Math.exp`, `Math.sqrt`,
`Math.cos`/`Math.sin`/`Math.atan2`.  They enter the code in two shapes
only and are abstracted accordingly:

* `Math.exp(-drag * dt)` is used purely as a multiplicative factor on the
  velocity; every definition below takes this factor as an explicit
  `dragFactor` argument.
* `Math.sqrt(d)` is used only in comparisons `sqrt d > L` (with `L ≥ 0`,
  `d ≥ 0`), which are equivalent to `d > L²` since `sqrt` is monotone on
  nonnegatives; the embeddings compare squares.  Where the square root is
  used as a scale (`maxSpeed / speed` in the player speed clamp), the
  scale is taken as an explicit argument.
* `Math.cos θ`/`Math.sin θ` appear only as a unit direction multiplied
  onto a scalar power; the embeddings take the direction components as
  explicit arguments.
-/

namespace Workdash

/-- Team tag, as the string union `"red" | "blue" | "spectator"` in the source
(`null` is modelled by wrapping in `Option`). -/
inductive Team where
  | red
  | blue
  | spectator
  deriving DecidableEq, Repr

/-- The `PHYSICS_CONSTANTS` of `shared-physics.ts`, as exact rationals. -/
def BALL_BOUNCE : ℚ := 0.7

def BALL_RADIUS : ℚ := 30

def PLAYER_RADIUS : ℚ := 30

def PLAYER_ACCEL : ℚ := 1600

def PLAYER_MAX_SPEED : ℚ := 600

def WORLD_WIDTH : ℚ := 3520

def WORLD_HEIGHT : ℚ := 1600

/-- Pure kinematic state `{x, y, vx, vy}` (`PhysicsState` in
`shared-physics.ts`). -/
@[ext]
structure PhysState where
  x : ℚ
  y : ℚ
  vx : ℚ
  vy : ℚ
  deriving DecidableEq, Repr

/-- The `integrateBall` of `shared-physics.ts`.  `dragFactor` stands for
`Math.exp(-BALL_DRAG * dt)` (the source computes it from `dt` and uses it
only as this multiplier).  Steps exactly as in the source: scale velocity
by the drag factor, integrate position, then clamp against the four walls
in the fixed order left, right, top, bottom. -/
def integrateBall (dragFactor dt : ℚ) (s : PhysState) : PhysState :=
  let vx := s.vx * dragFactor
  let vy := s.vy * dragFactor
  let x := s.x + vx * dt
  let y := s.y + vy * dt
  -- left wall
  let xv1 : ℚ × ℚ := if x < BALL_RADIUS then (BALL_RADIUS, |vx| * BALL_BOUNCE) else (x, vx)
  -- right wall
  let xv2 : ℚ × ℚ :=
    if xv1.1 > WORLD_WIDTH - BALL_RADIUS then (WORLD_WIDTH - BALL_RADIUS, -|xv1.2| * BALL_BOUNCE)
    else xv1
  -- top wall
  let yv1 : ℚ × ℚ := if y < BALL_RADIUS then (BALL_RADIUS, |vy| * BALL_BOUNCE) else (y, vy)
  -- bottom wall
  let yv2 : ℚ × ℚ :=
    if yv1.1 > WORLD_HEIGHT - BALL_RADIUS then (WORLD_HEIGHT - BALL_RADIUS, -|yv1.2| * BALL_BOUNCE)
    else yv1
  ⟨xv2.1, yv2.1, xv2.2, yv2.2⟩

/-! Spec-side description of `integrateBall`, written from the words of the
specification (§4.A): "multiply vx, vy by exp(-BALL_DRAG·dt)", "x += vx·dt;
y += vy·dt", then "clamp to pitch interior in fixed order left, right, top,
bottom; on each clamp set position to the wall ± radius and reflect the
corresponding velocity component" to BOUNCE times its absolute value,
directed away from that wall.  Used only to compare with the
source-translated `integrateBall`. -/

/-- Spec step 1: scale both velocity components by the drag factor. -/
def specDrag (dragFactor : ℚ) (s : PhysState) : PhysState :=
  { s with vx := s.vx * dragFactor, vy := s.vy * dragFactor }

/-- Spec step 2: advance the position by `v * dt`. -/
def specMove (dt : ℚ) (s : PhysState) : PhysState :=
  { s with x := s.x + s.vx * dt, y := s.y + s.vy * dt }

/-- Spec clamp, left wall: position to `wall + radius`, velocity component to
`BOUNCE` times its absolute value, directed away from the wall (rightward). -/
def specClampLeft (s : PhysState) : PhysState :=
  if s.x < BALL_RADIUS then { s with x := BALL_RADIUS, vx := |s.vx| * BALL_BOUNCE } else s

/-- Spec clamp, right wall: directed away is leftward (nonpositive). -/
def specClampRight (s : PhysState) : PhysState :=
  if s.x > WORLD_WIDTH - BALL_RADIUS then
    { s with x := WORLD_WIDTH - BALL_RADIUS, vx := -|s.vx| * BALL_BOUNCE }
  else s

/-- Spec clamp, top wall: directed away is downward (nonnegative). -/
def specClampTop (s : PhysState) : PhysState :=
  if s.y < BALL_RADIUS then { s with y := BALL_RADIUS, vy := |s.vy| * BALL_BOUNCE } else s

/-- Spec clamp, bottom wall: directed away is upward (nonpositive). -/
def specClampBottom (s : PhysState) : PhysState :=
  if s.y > WORLD_HEIGHT - BALL_RADIUS then
    { s with y := WORLD_HEIGHT - BALL_RADIUS, vy := -|s.vy| * BALL_BOUNCE }
  else s

/-- The spec's ball integration: drag, then move, then the four clamps in the
fixed order left, right, top, bottom. -/
def specIntegrateBall (dragFactor dt : ℚ) (s : PhysState) : PhysState :=
  specClampBottom (specClampTop (specClampRight (specClampLeft
    (specMove dt (specDrag dragFactor s)))))

/-- The bound `0.7 * |v| ≤ |v|`: a wall clamp never increases the magnitude of the
reflected velocity component. -/
theorem bounce_abs_le (v : ℚ) : |v| * BALL_BOUNCE ≤ |v| := by
  have h := abs_nonneg v
  rw [BALL_BOUNCE]
  nlinarith

/-- A reflected component `|v| * BOUNCE` is nonnegative. -/
theorem bounce_nonneg (v : ℚ) : 0 ≤ |v| * BALL_BOUNCE := by
  have h := abs_nonneg v
  rw [BALL_BOUNCE]
  nlinarith

/-- Magnitude bound for a clamp that reflects away from a low wall. -/
theorem abs_clamp_pos (v : ℚ) : |(|v| * BALL_BOUNCE)| ≤ |v| := by
  rw [abs_of_nonneg (bounce_nonneg v)]
  exact bounce_abs_le v

/-- Magnitude bound for a clamp that reflects away from a high wall. -/
theorem abs_clamp_neg (v : ℚ) : |(-|v| * BALL_BOUNCE)| ≤ |v| := by
  rw [neg_mul, abs_neg]
  exact abs_clamp_pos v

/-- A reflected component `-|v| * BOUNCE` is nonpositive. -/
theorem clamp_neg_nonpos (v : ℚ) : -|v| * BALL_BOUNCE ≤ 0 := by
  have h := bounce_nonneg v
  nlinarith

/-- The top and bottom clamps do not touch `x` or `vx`. -/
theorem specClampTopBottom_keep_x (s : PhysState) :
    (specClampTop s).x = s.x ∧ (specClampTop s).vx = s.vx ∧
    (specClampBottom s).x = s.x ∧ (specClampBottom s).vx = s.vx := by
  unfold specClampTop specClampBottom
  split_ifs <;> simp

/-- The left and right clamps do not touch `y` or `vy`. -/
theorem specClampLeftRight_keep_y (s : PhysState) :
    (specClampLeft s).y = s.y ∧ (specClampLeft s).vy = s.vy ∧
    (specClampRight s).y = s.y ∧ (specClampRight s).vy = s.vy := by
  unfold specClampLeft specClampRight
  split_ifs <;> simp

/-- A left clamp never increases `|vx|`. -/
theorem specClampLeft_vx_le (s : PhysState) : |(specClampLeft s).vx| ≤ |s.vx| := by
  unfold specClampLeft
  split_ifs
  · exact abs_clamp_pos s.vx
  · exact le_refl _

/-- A right clamp never increases `|vx|`. -/
theorem specClampRight_vx_le (s : PhysState) : |(specClampRight s).vx| ≤ |s.vx| := by
  unfold specClampRight
  split_ifs
  · exact abs_clamp_neg s.vx
  · exact le_refl _

/-- A top clamp never increases `|vy|`. -/
theorem specClampTop_vy_le (s : PhysState) : |(specClampTop s).vy| ≤ |s.vy| := by
  unfold specClampTop
  split_ifs
  · exact abs_clamp_pos s.vy
  · exact le_refl _

/-- A bottom clamp never increases `|vy|`. -/
theorem specClampBottom_vy_le (s : PhysState) : |(specClampBottom s).vy| ≤ |s.vy| := by
  unfold specClampBottom
  split_ifs
  · exact abs_clamp_neg s.vy
  · exact le_refl _

/-- The `integrateBall` agrees with the spec's drag–move–clamp pipeline. -/
theorem integrateBall_eq_spec (dragFactor dt : ℚ) (s : PhysState) :
    integrateBall dragFactor dt s = specIntegrateBall dragFactor dt s := by
  unfold integrateBall specIntegrateBall specClampBottom specClampTop specClampRight
    specClampLeft specMove specDrag
  dsimp only
  ext <;> simp only [apply_ite PhysState.x, apply_ite PhysState.y, apply_ite PhysState.vx,
    apply_ite PhysState.vy, apply_ite Prod.fst, apply_ite Prod.snd, ite_self]

/-- C4: one call to `integrateBall` performs exactly drag-scaling, position
integration, then the four wall clamps in the fixed order left, right, top,
bottom; each clamp that fires puts the ball at `wall ± radius` with velocity
`BOUNCE·|v|` directed away from that wall, and clamping never increases the
magnitude of a velocity component (so repeated clamping cannot re-energise
the ball and never points it back into the wall). -/
theorem integrateBall_correct (dragFactor dt : ℚ) (s : PhysState) (hdt : 0 < dt) :
    integrateBall dragFactor dt s = specIntegrateBall dragFactor dt s ∧
    (let vdx := s.vx * dragFactor
     let vdy := s.vy * dragFactor
     let px := s.x + vdx * dt
     let py := s.y + vdy * dt
     let r := integrateBall dragFactor dt s
     (px < BALL_RADIUS →
        r.x = BALL_RADIUS ∧ r.vx = |vdx| * BALL_BOUNCE ∧ 0 ≤ r.vx) ∧
     (px > WORLD_WIDTH - BALL_RADIUS →
        r.x = WORLD_WIDTH - BALL_RADIUS ∧ r.vx = -|vdx| * BALL_BOUNCE ∧ r.vx ≤ 0) ∧
     (py < BALL_RADIUS →
        r.y = BALL_RADIUS ∧ r.vy = |vdy| * BALL_BOUNCE ∧ 0 ≤ r.vy) ∧
     (py > WORLD_HEIGHT - BALL_RADIUS →
        r.y = WORLD_HEIGHT - BALL_RADIUS ∧ r.vy = -|vdy| * BALL_BOUNCE ∧ r.vy ≤ 0) ∧
     |r.vx| ≤ |vdx| ∧ |r.vy| ≤ |vdy|) := by
  have hxw : ¬ ((BALL_RADIUS : ℚ) > WORLD_WIDTH - BALL_RADIUS) := by
    norm_num [BALL_RADIUS, WORLD_WIDTH]
  have hyw : ¬ ((BALL_RADIUS : ℚ) > WORLD_HEIGHT - BALL_RADIUS) := by
    norm_num [BALL_RADIUS, WORLD_HEIGHT]
  refine ⟨integrateBall_eq_spec dragFactor dt s, ?_⟩
  dsimp only
  refine ⟨fun h => ?_, fun h => ?_, fun h => ?_, fun h => ?_, ?_, ?_⟩
  · -- left clamp fires
    unfold integrateBall
    dsimp only
    rw [if_pos h]
    dsimp only
    rw [if_neg hxw]
    exact ⟨rfl, rfl, bounce_nonneg _⟩
  · -- right clamp fires
    have hn : ¬ (s.x + s.vx * dragFactor * dt < BALL_RADIUS) := by
      rw [BALL_RADIUS] at h ⊢
      rw [WORLD_WIDTH] at h
      linarith
    unfold integrateBall
    dsimp only
    rw [if_neg hn]
    dsimp only
    rw [if_pos h]
    exact ⟨rfl, rfl, clamp_neg_nonpos _⟩
  · -- top clamp fires
    unfold integrateBall
    dsimp only
    rw [if_pos h]
    dsimp only
    rw [if_neg hyw]
    exact ⟨rfl, rfl, bounce_nonneg _⟩
  · -- bottom clamp fires
    have hn : ¬ (s.y + s.vy * dragFactor * dt < BALL_RADIUS) := by
      rw [BALL_RADIUS] at h ⊢
      rw [WORLD_HEIGHT] at h
      linarith
    unfold integrateBall
    dsimp only
    rw [if_neg hn]
    dsimp only
    rw [if_pos h]
    exact ⟨rfl, rfl, clamp_neg_nonpos _⟩
  · -- |vx| never grows
    unfold integrateBall
    dsimp only
    by_cases h1 : s.x + s.vx * dragFactor * dt < BALL_RADIUS
    · rw [if_pos h1]
      dsimp only
      rw [if_neg hxw]
      exact abs_clamp_pos _
    · rw [if_neg h1]
      dsimp only
      by_cases h2 : s.x + s.vx * dragFactor * dt > WORLD_WIDTH - BALL_RADIUS
      · rw [if_pos h2]
        exact abs_clamp_neg _
      · rw [if_neg h2]
  · -- |vy| never grows
    unfold integrateBall
    dsimp only
    by_cases h1 : s.y + s.vy * dragFactor * dt < BALL_RADIUS
    · rw [if_pos h1]
      dsimp only
      rw [if_neg hyw]
      exact abs_clamp_pos _
    · rw [if_neg h1]
      dsimp only
      by_cases h2 : s.y + s.vy * dragFactor * dt > WORLD_HEIGHT - BALL_RADIUS
      · rw [if_pos h2]
        exact abs_clamp_neg _
      · rw [if_neg h2]

/-- Witness for `integrateBall_correct` at a concrete input: a ball just
outside the left wall moving left, with `dragFactor = 1/2`, `dt = 1`. -/
theorem integrateBall_correct_witness :
    (0:ℚ) < 1 ∧
      integrateBall (1/2) 1 ⟨10, 800, -100, 0⟩ =
        specIntegrateBall (1/2) 1 ⟨10, 800, -100, 0⟩ :=
  ⟨by norm_num, (integrateBall_correct (1/2) 1 ⟨10, 800, -100, 0⟩ (by norm_num)).1⟩

/-! ## Game data model (`soccer.service.ts`) -/

/-- Soccer stat block `{speed, kickPower, dribbling}`. -/
structure SoccerStats where
  speed : ℚ
  kickPower : ℚ
  dribbling : ℚ
  deriving DecidableEq, Repr

/-- The authoritative ball singleton `SoccerService.ballState`. -/
structure Ball where
  x : ℚ
  y : ℚ
  vx : ℚ
  vy : ℚ
  sequence : ℕ
  lastTouchId : Option String
  previousTouchId : Option String
  lastTouchTimestamp : ℤ
  isMoving : Bool
  deriving DecidableEq, Repr

/-- The `PlayerPhysicsState` of `soccer.service.ts`. -/
structure PlayerPhys where
  id : String
  x : ℚ
  y : ℚ
  vx : ℚ
  vy : ℚ
  radius : ℚ
  team : Option Team
  soccerStats : Option SoccerStats
  deriving DecidableEq, Repr

/-- Messages the service emits to the room (payload fields reduced to the ones
the claims are about). -/
inductive Ev where
  | ballKicked (kickerId : String) (sequence : ℕ)
  | ballStateSnap (x y vx vy : ℚ) (sequence : ℕ)
  | ballIntercepted (playerId : String)
  | goalScored (scoringTeam : Team)
  | skillActivated (activatorId skillId : String) (durationMs : ℤ)
  | skillEnded (activatorId skillId : String)
  | skillTriggered (activatorId skillId : String) (targetX targetY : ℚ)
  | blinkActivated (activatorId : String) (fromX fromY toX toY : ℚ)
  | playerReset (playerId : String) (x y : ℚ)
  deriving DecidableEq, Repr

/-- JavaScript `a || b` for an optional number: `undefined` and `0` are falsy. -/
def jsOrQ (a : Option ℚ) (b : ℚ) : ℚ :=
  match a with
  | some v => if v = 0 then b else v
  | none => b

/-- Constants of `SoccerService`. -/
def BASE_KICK_POWER : ℚ := 1000

def KICK_COOLDOWN_MS : ℤ := 300

def KICK_KNOCKBACK : ℚ := 400

def MAX_DRIBBLE_DISTANCE : ℚ := 300

/-- The `calculateSpeedMultiplier` of `shared-physics.ts`. -/
def calculateSpeedMultiplier (speedStat : ℚ) : ℚ := 1.0 + speedStat * 0.1

/-- The `calculateKickPowerMultiplier` of `shared-physics.ts`. -/
def calculateKickPowerMultiplier (kickPowerStat : ℚ) : ℚ := 1.0 + kickPowerStat * 0.1

/-- The `calculateDragMultiplier` of `shared-physics.ts`. -/
def calculateDragMultiplier (dribblingStat : ℚ) : ℚ := max 0.5 (1.0 - dribblingStat * 0.05)

/-- The `calculateKickVelocity` of `shared-physics.ts`.  `cosAngle`/`sinAngle`
stand for `Math.cos(angle)`/`Math.sin(angle)`, the only way the angle is
used. -/
def calculateKickVelocity (cosAngle sinAngle basePower kickPowerStat : ℚ)
    (hasMetavision : Bool) : ℚ × ℚ :=
  let multiplier := calculateKickPowerMultiplier kickPowerStat
  let multiplier := if hasMetavision then multiplier * 1.2 else multiplier
  let power := basePower * multiplier
  (cosAngle * power, sinAngle * power)

/-- One sample of a position-history ring buffer. -/
structure HistEntry where
  x : ℚ
  y : ℚ
  timestamp : ℤ
  deriving DecidableEq, Repr

/-- The `findClosestHistoryState` of `soccer.service.ts`: scan for the entry whose
timestamp is nearest the target, reject if the best is more than 500 ms off. -/
def findClosestHistoryState (history : List HistEntry) (targetTimestamp : ℤ) :
    Option HistEntry :=
  match history with
  | [] => none
  | h0 :: _ =>
    let closest := history.foldl
      (fun acc entry =>
        if |targetTimestamp - entry.timestamp| < |targetTimestamp - acc.timestamp| then entry
        else acc)
      h0
    if 500 < |targetTimestamp - closest.timestamp| then none else some closest

/-- The lag-compensation rewind in `handleBallKick`: when the client sent a
(truthy) timestamp and a history sample within 500 ms exists, use that sample's
position, otherwise the current one.  (The source's extra
`history.length > 0` guard is subsumed: `findClosestHistoryState` returns
`null` on an empty history.) -/
def rewound (hist : List HistEntry) (tsOpt : Option ℤ) (cur : ℚ × ℚ) : ℚ × ℚ :=
  match tsOpt with
  | some ts =>
    if ts ≠ 0 then
      match findClosestHistoryState hist ts with
      | some r => (r.x, r.y)
      | none => cur
    else cur
  | none => none.getD cur

/-- The `ball:kick` message payload (`BallKickData`): `cosAngle`/`sinAngle` stand
for `Math.cos(data.angle)`/`Math.sin(data.angle)`. -/
structure KickData where
  playerId : String
  cosAngle : ℚ
  sinAngle : ℚ
  kickPower : Option ℚ
  timestamp : Option ℤ
  deriving DecidableEq, Repr

/-- The slice of service state `handleBallKick` reads: the clock, the shared
`lastKickTime`, the ball, the kicker's physics record and `playerState.team`
(both `Option`: absent means not found in the respective map), whether the
kicker is in `metavisionPlayers`, the kicker's `playerBuffs.kickPower`
entry, and the two history buffers. -/
structure KickEnv where
  now : ℤ
  lastKickTime : ℤ
  ball : Ball
  kicker : Option PlayerPhys
  kickerTeam : Option Team
  metavision : Bool
  kickPowerBuff : Option (ℚ × ℤ)
  playerHist : List HistEntry
  ballHist : List HistEntry
  deriving Repr

/-- What an accepted kick produces: the new ball, the kicker with recoil
applied, the updated shared `lastKickTime`, and the emitted messages. -/
structure KickOutcome where
  ball : Ball
  kicker : PlayerPhys
  lastKickTime : ℤ
  events : List Ev
  deriving DecidableEq, Repr

/-- The (squared) kicker-to-ball distance `handleBallKick` validates, after
the optional history rewind.  The source compares
`sqrt(dx²+dy²) > maxKickDistance`; both sides being nonnegative this is
`dx²+dy² > maxKickDistance²`, which is what the embedding compares. -/
def kickDistSq (env : KickEnv) (d : KickData) (kickerPhysics : PlayerPhys) : ℚ :=
  let kpos := rewound env.playerHist d.timestamp (kickerPhysics.x, kickerPhysics.y)
  let bpos := rewound env.ballHist d.timestamp (env.ball.x, env.ball.y)
  let dx := bpos.1 - kpos.1
  let dy := bpos.2 - kpos.2
  dx * dx + dy * dy

/-- The `maxKickDistance` in `handleBallKick`: 300 with metavision, else 250. -/
def maxKickDistance (isMetaVisionActive : Bool) : ℚ :=
  if isMetaVisionActive then 300 else 250

/-- The `handleBallKick` of `soccer.service.ts`.  `none` models a silent drop
(early `return`); `some` carries the state written and events emitted. -/
def handleBallKick (env : KickEnv) (d : KickData) : Option KickOutcome :=
  -- === Cooldown Check ===
  if env.now - env.lastKickTime < KICK_COOLDOWN_MS then none
  else
    -- === Player Validation ===
    match env.kicker, env.kickerTeam with
    | some kickerPhysics, some team =>
      if team ≠ Team.red ∧ team ≠ Team.blue then none
      else
        -- === Lag compensation + Distance Validation ===
        if kickDistSq env d kickerPhysics >
            maxKickDistance env.metavision * maxKickDistance env.metavision then none
        else
          -- === Apply Kick ===
          let kickPowerStat :=
            (match kickerPhysics.soccerStats with
             | some st => st.kickPower
             | none => 0) +
            (match env.kickPowerBuff with
             | some bv => if env.now < bv.2 then bv.1 else 0
             | none => 0)
          let kv := calculateKickVelocity d.cosAngle d.sinAngle
            (jsOrQ d.kickPower BASE_KICK_POWER) kickPowerStat env.metavision
          let ball0 := env.ball
          let seq := ball0.sequence + 1
          let touch : Option String × Option String :=
            if ball0.lastTouchId ≠ some d.playerId then (ball0.lastTouchId, some d.playerId)
            else (ball0.previousTouchId, ball0.lastTouchId)
          let ball1 : Ball :=
            { ball0 with
              sequence := seq, vx := kv.1, vy := kv.2, isMoving := true,
              previousTouchId := touch.1, lastTouchId := touch.2,
              lastTouchTimestamp := env.now }
          let kicker1 : PlayerPhys :=
            { kickerPhysics with
              vx := kickerPhysics.vx + -d.cosAngle * KICK_KNOCKBACK,
              vy := kickerPhysics.vy + -d.sinAngle * KICK_KNOCKBACK }
          some
            { ball := ball1, kicker := kicker1, lastKickTime := env.now,
              events :=
                [Ev.ballKicked d.playerId seq,
                 Ev.ballStateSnap ball1.x ball1.y ball1.vx ball1.vy seq] }
    | _, _ => none

/-- The slice of state `handleBallDribble` reads. -/
structure DribbleEnv where
  now : ℤ
  lastKickTime : ℤ
  ball : Ball
  playerTeam : Option Team
  player : Option PlayerPhys
  deriving Repr

/-- The `handleBallDribble` of `soccer.service.ts`.  `ux`/`uy` stand for
`Math.cos(atan2(dy,dx))`/`Math.sin(atan2(dy,dx))` — the unit vector from the
player to the ball, the only way the angle is used.  Note: the dribble
replaces the ball velocity but does NOT touch `ball.sequence`. -/
def handleBallDribble (env : DribbleEnv) (playerId : String) (ux uy : ℚ) :
    Option (Ball × List Ev) :=
  -- Prevent dribble from overriding recent kicks (100ms cooldown)
  if env.now - env.lastKickTime < 100 then none
  else
    match env.playerTeam with
    | none => none
    | some tm =>
      if tm ≠ Team.red ∧ tm ≠ Team.blue then none
      else
        match env.player with
        | none => none
        | some playerPhysics =>
          let dx := env.ball.x - playerPhysics.x
          let dy := env.ball.y - playerPhysics.y
          if dx * dx + dy * dy > MAX_DRIBBLE_DISTANCE * MAX_DRIBBLE_DISTANCE then none
          else
            let dribblePower : ℚ := 300
            let ball1 : Ball :=
              { env.ball with
                vx := ux * dribblePower, vy := uy * dribblePower,
                previousTouchId :=
                  if env.ball.lastTouchId ≠ some playerId then env.ball.lastTouchId
                  else env.ball.previousTouchId,
                lastTouchId :=
                  if env.ball.lastTouchId ≠ some playerId then some playerId
                  else env.ball.lastTouchId,
                lastTouchTimestamp := env.now, isMoving := true }
            some (ball1,
              [Ev.ballStateSnap ball1.x ball1.y ball1.vx ball1.vy ball1.sequence])

/-- The `resetBall`'s deferred `resetAction`: ball to the pitch centre, zero
velocity, cleared touch chain, `sequence` bumped by one. -/
def resetBallAction (b : Ball) : Ball :=
  { x := WORLD_WIDTH / 2, y := WORLD_HEIGHT / 2, vx := 0, vy := 0,
    lastTouchId := none, previousTouchId := none, lastTouchTimestamp := 0,
    isMoving := false, sequence := b.sequence + 1 }

/-- The `power_shot` parameters from `soccer-skills.config.ts`. -/
structure PowerShotParams where
  force : ℚ
  knockbackForce : ℚ
  ballRetention : ℚ
  activeWindowMs : ℤ
  deriving DecidableEq, Repr

/-- The configured `power_shot` skill parameters. -/
def powerShotParams : PowerShotParams := ⟨2000, 300, 0.8, 3000⟩

/-- The `powerShotActivation` record the service stores. -/
structure PowerShotActivation where
  playerId : String
  knockbackForce : ℚ
  ballRetention : ℚ
  expiresAt : ℤ
  deriving DecidableEq, Repr

/-- The slice of state the `power_shot` branch of `handleActivateSkill`
reads. -/
structure PowerShotEnv where
  now : ℤ
  ball : Ball
  activator : Option PlayerPhys
  activatorTeam : Option Team
  deriving Repr

/-- What an accepted power shot writes. -/
structure PowerShotOutcome where
  ball : Ball
  activator : PlayerPhys
  powerShotActivation : PowerShotActivation
  kickPowerBuff : ℚ × ℤ
  events : List Ev
  deriving Repr

/-- The `power_shot` branch of `handleActivateSkill`.  `cg`/`sg` stand for
`Math.cos(angle)`/`Math.sin(angle)` of the auto-aim angle
`atan2(goalY - y, goalX - x)`, the only way the angle is used.  The distance
gate `sqrt(d) > 200` is compared as `d > 200²`.  Note: the shot replaces the
ball velocity but does NOT touch `ball.sequence`, and it overwrites
`lastTouchId` without shifting the previous-touch chain. -/
def handlePowerShot (env : PowerShotEnv) (playerId : String) (cg sg : ℚ) :
    Option PowerShotOutcome :=
  match env.activator, env.activatorTeam with
  | some activatorPhysics, some tm =>
    let dx := env.ball.x - activatorPhysics.x
    let dy := env.ball.y - activatorPhysics.y
    if dx * dx + dy * dy > 200 * 200 then none
    else if tm ≠ Team.red ∧ tm ≠ Team.blue then none
    else
      let kickPowerMultiplier :=
        1.0 + (match activatorPhysics.soccerStats with
               | some st => st.kickPower
               | none => 0) * 0.1
      let ball1 : Ball :=
        { env.ball with
          vx := cg * powerShotParams.force * kickPowerMultiplier,
          vy := sg * powerShotParams.force * kickPowerMultiplier,
          lastTouchId := some playerId, lastTouchTimestamp := env.now,
          isMoving := true }
      let activator1 : PlayerPhys :=
        { activatorPhysics with
          vx := activatorPhysics.vx + -cg * KICK_KNOCKBACK,
          vy := activatorPhysics.vy + -sg * KICK_KNOCKBACK }
      some
        { ball := ball1, activator := activator1,
          powerShotActivation :=
            ⟨playerId, powerShotParams.knockbackForce, powerShotParams.ballRetention,
             env.now + powerShotParams.activeWindowMs⟩,
          kickPowerBuff := (5, env.now + 3000),
          events :=
            [Ev.skillActivated playerId "power_shot" 3000,
             Ev.ballStateSnap ball1.x ball1.y ball1.vx ball1.vy ball1.sequence] }
  | _, _ => none

/-- The stage-2 (intercept) body of the `lurking_radius` branch of
`handleActivateSkill`, reached when the player is already lurking: if the ball
is within `radius` (squared comparison of the source's `dist <= radius`),
teleport the player to ±40 px of the ball (offset along the own-team attacking
direction), clamped only to `[0, WORLD_WIDTH] × [0, WORLD_HEIGHT]`, zero the
ball velocity and take possession.  Note: `ball.sequence` is NOT touched. -/
def lurkIntercept (now : ℤ) (ball : Ball) (playerPhysics : PlayerPhys)
    (team : Option Team) (radius : ℚ) (playerId : String) :
    Option (Ball × PlayerPhys × List Ev) :=
  let dx := ball.x - playerPhysics.x
  let dy := ball.y - playerPhysics.y
  if dx * dx + dy * dy ≤ radius * radius then
    let offsetDistance : ℚ := 40
    let interceptX0 :=
      match team with
      | some Team.red => ball.x - offsetDistance
      | some Team.blue => ball.x + offsetDistance
      | _ => ball.x
    let interceptX := max 0 (min interceptX0 WORLD_WIDTH)
    let interceptY := max 0 (min ball.y WORLD_HEIGHT)
    let player1 : PlayerPhys :=
      { playerPhysics with x := interceptX, y := interceptY, vx := 0, vy := 0 }
    let ball1 : Ball :=
      { ball with
        lastTouchId := some playerId
        lastTouchTimestamp := now
        vx := 0
        vy := 0 }
    some (ball1, player1,
      [Ev.skillTriggered playerId "lurking_radius" interceptX interceptY,
       Ev.ballStateSnap ball1.x ball1.y ball1.vx ball1.vy ball1.sequence])
  else none

/-- Closed form of `calculateKickVelocity`: direction times
`basePower · (1 + 0.1·kickPower)`, times 1.2 under metavision. -/
theorem calculateKickVelocity_closed (c s bp stat : ℚ) (m : Bool) :
    calculateKickVelocity c s bp stat m =
      (c * (bp * ((1 + stat * 0.1) * (if m then 1.2 else 1))),
       s * (bp * ((1 + stat * 0.1) * (if m then 1.2 else 1)))) := by
  unfold calculateKickVelocity calculateKickPowerMultiplier
  cases m <;>
    simp only [Bool.false_eq_true, if_false, if_true, Prod.mk.injEq] <;>
    constructor <;> ring

/-- C5: with the kicker present in both the physics and position maps, a
`ball:kick` is rejected iff the (optionally history-rewound) distance gate,
the team gate, or the shared 300 ms cooldown gate fails; on acceptance the
ball velocity becomes `(cosθ, sinθ) · basePower · (1 + 0.1·kickPower)`
(times 1.2 under metavision), `kickSequence` is bumped, the kicker receives
a 400-magnitude recoil anti-parallel to the kick, the touch chain is
updated, and a ball snapshot is emitted immediately. -/
theorem handleBallKick_spec (env : KickEnv) (d : KickData) (kickerPhysics : PlayerPhys)
    (team : Team) (hk : env.kicker = some kickerPhysics)
    (ht : env.kickerTeam = some team) :
    (handleBallKick env d = none ↔
      (env.now - env.lastKickTime < KICK_COOLDOWN_MS ∨
       (team ≠ Team.red ∧ team ≠ Team.blue) ∨
       kickDistSq env d kickerPhysics >
         maxKickDistance env.metavision * maxKickDistance env.metavision)) ∧
    (∀ out, handleBallKick env d = some out →
      (let kickPowerStat :=
        (match kickerPhysics.soccerStats with
         | some st => st.kickPower
         | none => 0) +
        (match env.kickPowerBuff with
         | some bv => if env.now < bv.2 then bv.1 else 0
         | none => 0)
       let power := jsOrQ d.kickPower BASE_KICK_POWER *
         ((1 + kickPowerStat * 0.1) * (if env.metavision then 1.2 else 1))
       out.ball.vx = d.cosAngle * power ∧
       out.ball.vy = d.sinAngle * power ∧
       out.ball.sequence = env.ball.sequence + 1 ∧
       out.kicker.vx = kickerPhysics.vx - d.cosAngle * KICK_KNOCKBACK ∧
       out.kicker.vy = kickerPhysics.vy - d.sinAngle * KICK_KNOCKBACK ∧
       out.lastKickTime = env.now ∧
       out.ball.lastTouchTimestamp = env.now ∧
       (env.ball.lastTouchId ≠ some d.playerId →
          out.ball.lastTouchId = some d.playerId ∧
          out.ball.previousTouchId = env.ball.lastTouchId) ∧
       Ev.ballStateSnap out.ball.x out.ball.y out.ball.vx out.ball.vy
         out.ball.sequence ∈ out.events)) := by
  constructor
  · simp only [handleBallKick, hk, ht]
    split_ifs with h1 h2 h3 <;> simp_all
  · intro out h
    simp only [handleBallKick, hk, ht] at h
    split_ifs at h with h1 h2 h3 h4
    all_goals try exact Option.noConfusion h
    all_goals injection h with h5
    all_goals subst h5
    all_goals dsimp only
    all_goals refine ⟨?_, ?_, rfl, by ring, by ring, rfl, rfl, ?_, by simp⟩
    all_goals first
      | rw [calculateKickVelocity_closed]
      | (intro hne; exact ⟨rfl, rfl⟩)
      | (intro hne; exact absurd hne h4)

/-- The kicker record used by the `handleBallKick_spec` witness. -/
def kickWitKicker : PlayerPhys :=
  ⟨"k1", 1700, 800, 0, 0, 30, some Team.red, some ⟨5, 5, 5⟩⟩

/-- A concrete kick environment: kicker 100 px left of the ball, no
metavision, no buffs, cooldown long expired. -/
def kickWitEnv : KickEnv :=
  { now := 10000, lastKickTime := 0,
    ball := ⟨1800, 800, 0, 0, 5, none, none, 0, false⟩,
    kicker := some kickWitKicker, kickerTeam := some Team.red,
    metavision := false, kickPowerBuff := none, playerHist := [], ballHist := [] }

/-- A concrete rightward kick with default power. -/
def kickWitData : KickData := ⟨"k1", 1, 0, none, none⟩

/-- Witness for `handleBallKick_spec` at a concrete accepted kick. -/
theorem handleBallKick_spec_witness :
    handleBallKick kickWitEnv kickWitData = none ↔
      (kickWitEnv.now - kickWitEnv.lastKickTime < KICK_COOLDOWN_MS ∨
       (Team.red ≠ Team.red ∧ Team.red ≠ Team.blue) ∨
       kickDistSq kickWitEnv kickWitData kickWitKicker >
         maxKickDistance kickWitEnv.metavision * maxKickDistance kickWitEnv.metavision) :=
  (handleBallKick_spec kickWitEnv kickWitData kickWitKicker Team.red rfl rfl).1

/-- C2 (amended): `ball.sequence` is bumped by exactly one on every accepted
kick and on every goal/game reset of the ball, but an accepted dribble, an
accepted power shot, and a lurking-radius intercept replace the ball's
velocity WITHOUT changing `ball.sequence`. -/
theorem kickSequence_amended :
    (∀ env d out, handleBallKick env d = some out →
       out.ball.sequence = env.ball.sequence + 1) ∧
    (∀ b, (resetBallAction b).sequence = b.sequence + 1) ∧
    (∀ env pid ux uy r, handleBallDribble env pid ux uy = some r →
       r.1.sequence = env.ball.sequence ∧ r.1.vx = ux * 300 ∧ r.1.vy = uy * 300) ∧
    (∀ env pid cg sg out, handlePowerShot env pid cg sg = some out →
       out.ball.sequence = env.ball.sequence) ∧
    (∀ now b p tm rad pid r, lurkIntercept now b p tm rad pid = some r →
       r.1.sequence = b.sequence ∧ r.1.vx = 0 ∧ r.1.vy = 0) := by
  refine ⟨?_, fun b => rfl, ?_, ?_, ?_⟩
  · intro env d out h
    rcases hk : env.kicker with _ | kp <;>
      rcases ht : env.kickerTeam with _ | tm <;>
      simp only [handleBallKick, hk, ht] at h
    all_goals try exact Option.noConfusion h
    all_goals try split_ifs at h
    all_goals try exact Option.noConfusion h
    all_goals (injection h with h4; subst h4; rfl)
  · intro env pid ux uy r h
    rcases ht : env.playerTeam with _ | tm <;>
      rcases hp : env.player with _ | pp <;>
      simp only [handleBallDribble, ht, hp] at h
    all_goals try exact Option.noConfusion h
    all_goals try split_ifs at h
    all_goals try exact Option.noConfusion h
    all_goals (injection h with h4; subst h4; exact ⟨rfl, rfl, rfl⟩)
  · intro env pid cg sg out h
    rcases ha : env.activator with _ | ap <;>
      rcases ht : env.activatorTeam with _ | tm <;>
      simp only [handlePowerShot, ha, ht] at h
    all_goals try exact Option.noConfusion h
    all_goals try split_ifs at h
    all_goals try exact Option.noConfusion h
    all_goals (injection h with h4; subst h4; rfl)
  · intro now b p tm rad pid r h
    simp only [lurkIntercept] at h
    split_ifs at h
    all_goals try exact Option.noConfusion h
    all_goals (injection h with h4; subst h4; exact ⟨rfl, rfl, rfl⟩)

/-- A concrete dribble state: player 60 px left of the ball, on team red,
1000 ms after the last kick, ball sequence 7. -/
def dribbleCexEnv : DribbleEnv :=
  { now := 1000, lastKickTime := 0,
    ball := ⟨1760, 800, 0, 0, 7, none, none, 0, false⟩,
    playerTeam := some Team.red,
    player := some ⟨"p1", 1700, 800, 0, 0, 30, some Team.red, none⟩ }

/-- C2 counterexample: this dribble is accepted and replaces the ball's
velocity (it becomes `(300, 0)`), yet `ball.sequence` stays at 7 — it does
not strictly increase. -/
theorem kickSequence_counterexample :
    (handleBallDribble dribbleCexEnv "p1" 1 0).map (fun r => r.1.sequence) = some 7 ∧
    dribbleCexEnv.ball.sequence = 7 ∧
    (handleBallDribble dribbleCexEnv "p1" 1 0).map (fun r => r.1.vx) = some 300 := by
  refine ⟨?_, rfl, ?_⟩ <;>
    norm_num [handleBallDribble, dribbleCexEnv, MAX_DRIBBLE_DISTANCE]

/-- The outcome `handleBallKick` computes for `kickWitEnv`/`kickWitData`:
velocity `(1500, 0)` (power 1000·1.5), sequence bumped 5 → 6, recoil −400. -/
def kickWitOutcome : KickOutcome :=
  ⟨⟨1800, 800, 1500, 0, 6, some "k1", none, 10000, true⟩,
   ⟨"k1", 1700, 800, -400, 0, 30, some Team.red, some ⟨5, 5, 5⟩⟩,
   10000,
   [Ev.ballKicked "k1" 6, Ev.ballStateSnap 1800 800 1500 0 6]⟩

/-- Witness for `kickSequence_amended`: the concrete accepted kick of
`kickWitEnv` has its sequence bumped from 5 to 6. -/
theorem kickSequence_amended_witness :
    handleBallKick kickWitEnv kickWitData = some kickWitOutcome ∧
      kickWitOutcome.ball.sequence = kickWitEnv.ball.sequence + 1 := by
  have h : handleBallKick kickWitEnv kickWitData = some kickWitOutcome := by
    norm_num [handleBallKick, kickWitEnv, kickWitData, kickWitKicker, kickWitOutcome,
      KICK_COOLDOWN_MS, kickDistSq, rewound, maxKickDistance, jsOrQ,
      BASE_KICK_POWER, KICK_KNOCKBACK, calculateKickVelocity,
      calculateKickPowerMultiplier]
    try exact ⟨rfl, rfl⟩
  exact ⟨h, kickSequence_amended.1 kickWitEnv kickWitData kickWitOutcome h⟩

/-! ## Player integration, blink, spawns (claims C7 and C10) -/

/-- The `PlayerInputState` of `soccer.service.ts` (the kernel's
`PlayerPhysicsInput` is the same four booleans; the server's queued inputs
additionally carry the client `sequence`). -/
structure PlayerInputState where
  up : Bool
  down : Bool
  left : Bool
  right : Bool
  sequence : ℕ
  deriving DecidableEq, Repr

/-- The `integratePlayer` of `shared-physics.ts`.  `dragFactor` stands for
`Math.exp(-PLAYER_DRAG * dragMultiplier * dt)` (the drag multiplier enters
the code only inside this exponential); `speedScale` stands for
`maxSpeed / Math.sqrt(vx² + vy²)`, the only other non-rational value, and
the clamp's guard `speed > maxSpeed` is compared on squares.  Steps exactly
as the source: input acceleration, drag, speed clamp, move, then the four
wall clamps in order left, right, top, bottom (each zeroing the matching
velocity component). -/
def integratePlayer (dragFactor speedScale dt speedMultiplier : ℚ)
    (input : PlayerInputState) (s : PhysState) : PhysState :=
  let accel := PLAYER_ACCEL * speedMultiplier
  let maxSpeed := PLAYER_MAX_SPEED * speedMultiplier
  let vy0 := if input.up then s.vy - accel * dt else s.vy
  let vy1 := if input.down then vy0 + accel * dt else vy0
  let vx0 := if input.left then s.vx - accel * dt else s.vx
  let vx1 := if input.right then vx0 + accel * dt else vx0
  let vx2 := vx1 * dragFactor
  let vy2 := vy1 * dragFactor
  let vv : ℚ × ℚ :=
    if vx2 * vx2 + vy2 * vy2 > maxSpeed * maxSpeed then (vx2 * speedScale, vy2 * speedScale)
    else (vx2, vy2)
  let x := s.x + vv.1 * dt
  let y := s.y + vv.2 * dt
  let xv1 : ℚ × ℚ := if x < PLAYER_RADIUS then (PLAYER_RADIUS, 0) else (x, vv.1)
  let xv2 : ℚ × ℚ :=
    if xv1.1 > WORLD_WIDTH - PLAYER_RADIUS then (WORLD_WIDTH - PLAYER_RADIUS, 0) else xv1
  let yv1 : ℚ × ℚ := if y < PLAYER_RADIUS then (PLAYER_RADIUS, 0) else (y, vv.2)
  let yv2 : ℚ × ℚ :=
    if yv1.1 > WORLD_HEIGHT - PLAYER_RADIUS then (WORLD_HEIGHT - PLAYER_RADIUS, 0) else yv1
  ⟨xv2.1, yv2.1, xv2.2, yv2.2⟩

/-- A low-then-high clamp pair (the pattern used for each axis in both
`integrateBall` and `integratePlayer`) always lands in `[low, high]`. -/
theorem clampPair_bounds (low high a b p v : ℚ) (h : low ≤ high) :
    low ≤ (if (if p < low then (low, a) else (p, v)).1 > high
           then (high, b)
           else if p < low then (low, a) else (p, v)).1 ∧
    (if (if p < low then (low, a) else (p, v)).1 > high
     then (high, b)
     else if p < low then (low, a) else (p, v)).1 ≤ high := by
  by_cases h1 : p < low
  · rw [if_pos h1]
    dsimp only
    rw [if_neg (not_lt.mpr h)]
    exact ⟨le_refl low, h⟩
  · rw [if_neg h1]
    dsimp only
    by_cases h2 : p > high
    · rw [if_pos h2]
      exact ⟨h, le_refl high⟩
    · rw [if_neg h2]
      exact ⟨le_of_not_lt h1, le_of_not_lt h2⟩

/-- Points whose centre is at least `r` from every wall of the pitch. -/
def inPitch (r x y : ℚ) : Prop :=
  r ≤ x ∧ x ≤ WORLD_WIDTH - r ∧ r ≤ y ∧ y ≤ WORLD_HEIGHT - r

/-- The `RED_TEAM_SPAWNS` of `soccer.service.ts`. -/
def RED_TEAM_SPAWNS : List (ℚ × ℚ) :=
  [(1413, 515), (1413, 777), (1413, 985), (941.3, 515), (941.3, 777), (941.3, 985)]

/-- The `BLUE_TEAM_SPAWNS` of `soccer.service.ts`. -/
def BLUE_TEAM_SPAWNS : List (ℚ × ℚ) :=
  [(2102.73, 515), (2102.73, 777), (2102.73, 985), (2532, 515), (2532, 777.78),
   (2532, 985.32)]

/-- The deferred body of `resetAllPlayerPositions`: every SoccerMap player on
team red gets `RED_TEAM_SPAWNS[index % 6]` (index = position among red
players, in map iteration order), likewise for blue; spectators are left
alone.  The result lists the `(playerId, spawn)` teleports performed. -/
def resetAllPlayersAction (roster : List (String × Option Team)) :
    List (String × (ℚ × ℚ)) :=
  let redTeamPlayers := (roster.filter (fun p => p.2 = some Team.red)).map Prod.fst
  let blueTeamPlayers := (roster.filter (fun p => p.2 = some Team.blue)).map Prod.fst
  redTeamPlayers.enum.map
    (fun p => (p.2, RED_TEAM_SPAWNS.getD (p.1 % RED_TEAM_SPAWNS.length) (0, 0))) ++
  blueTeamPlayers.enum.map
    (fun p => (p.2, BLUE_TEAM_SPAWNS.getD (p.1 % BLUE_TEAM_SPAWNS.length) (0, 0)))

/-- The `GameStatus` of `soccer.service.ts`. -/
inductive GameStatus where
  | LOBBY
  | SKILL_SELECTION
  | ACTIVE
  deriving DecidableEq, Repr

/-- An axis-aligned collision rectangle (`CollisionRect`). -/
structure Rect where
  x : ℚ
  y : ℚ
  width : ℚ
  height : ℚ
  deriving DecidableEq, Repr

/-- The `getFacingVector` of `soccer.service.ts` (default case: `(0, 1)`). -/
def getFacingVector (facing : String) : ℚ × ℚ :=
  if facing = "UP" then (0, -1)
  else if facing = "DOWN" then (0, 1)
  else if facing = "LEFT" then (-1, 0)
  else if facing = "RIGHT" then (1, 0)
  else (0, 1)

/-- The `checkBlinkCollision` of `soccer.service.ts`: for players on team red or
blue it ALWAYS returns `null` (no wall check at all); for spectators it
cancels the blink (returns the start point) when the endpoint is inside any
collision rectangle (the source's first-hit loop is equivalent to `any`
since every hit returns the same point). -/
def checkBlinkCollision (startX startY endX endY : ℚ) (team : Option Team)
    (collisionRects : List Rect) : Option (ℚ × ℚ) :=
  let isSpectator := team ≠ some Team.red ∧ team ≠ some Team.blue
  if ¬ isSpectator then none
  else if collisionRects.any (fun rect =>
      rect.x ≤ endX ∧ endX ≤ rect.x + rect.width ∧
      rect.y ≤ endY ∧ endY ≤ rect.y + rect.height) then
    some (startX, startY)
  else none

/-- The `blink` skill configuration (`soccer-skills.config.ts`). -/
def blinkCooldownMs : ℤ := 12000

/-- Blink teleport distance in pixels. -/
def blinkDistance : ℚ := 400

/-- The `preventWallClip` parameter of the blink skill. -/
def blinkPreventWallClip : Bool := true

/-- Blink has no duration (instant effect). -/
def blinkDurationMs : ℤ := 0

/-- The slice of state `handleActivateSkill` reads when invoked with
`skillId = "blink"`: the clock, the game status, the activator's assigned
skill, their `playerCooldowns.get("blink") || 0`, their position-map team
(`none` = not in the map or teamless — both rejected identically), their
physics record, the optional `facingDirection`, and the collision
rectangles. -/
structure BlinkEnv where
  now : ℤ
  playerId : String
  gameStatus : GameStatus
  assignedSkill : Option String
  lastUsed : ℤ
  team : Option Team
  physics : Option PlayerPhys
  facing : Option String
  collisionRects : List Rect
  deriving Repr

/-- What a non-dropped blink activation writes: the cooldown timestamp
recorded for the skill, the (possibly unchanged) physics record, the events
emitted, and whether a `skill:ended` timer was scheduled. -/
structure BlinkOutcome where
  cooldownSetTo : ℤ
  physics : Option PlayerPhys
  events : List Ev
  scheduledEnd : Bool
  deriving DecidableEq, Repr

/-- The `handleActivateSkill` of `soccer.service.ts`, specialised to
`skillId = "blink"` (the `ninja_step`, `lurking_radius` and `power_shot`
branches compare against that literal and are skipped; blink's params are
not a speed effect, so the slow loop is a no-op).  The cooldown timestamp is
recorded BEFORE the blink branch runs; when `facingDirection` is absent or
the activator has no physics record the blink branch falls through to the
generic `skill:activated` emit with the player untouched. -/
def handleActivateSkillBlink (env : BlinkEnv) : Option BlinkOutcome :=
  match env.team with
  | none => none
  | some tm =>
    if tm ≠ Team.red ∧ tm ≠ Team.blue then none
    else if env.gameStatus ≠ GameStatus.LOBBY ∧ env.assignedSkill ≠ some "blink" then none
    else if env.now - env.lastUsed < blinkCooldownMs then none
    else
      let cooldownSetTo := env.now
      match env.physics, env.facing with
      | some activatorPhysics, some facing =>
        let startX := activatorPhysics.x
        let startY := activatorPhysics.y
        let direction := getFacingVector facing
        let target0 := (startX + direction.1 * blinkDistance,
                        startY + direction.2 * blinkDistance)
        let target :=
          if blinkPreventWallClip then
            match checkBlinkCollision startX startY target0.1 target0.2
                activatorPhysics.team env.collisionRects with
            | some c => c
            | none => target0
          else target0
        some
          { cooldownSetTo := cooldownSetTo,
            physics := some
              { activatorPhysics with x := target.1, y := target.2, vx := 0, vy := 0 },
            events := [Ev.blinkActivated env.playerId startX startY target.1 target.2],
            scheduledEnd := false }
      | _, _ =>
        some
          { cooldownSetTo := cooldownSetTo,
            physics := env.physics,
            events := [Ev.skillActivated env.playerId "blink" blinkDurationMs],
            scheduledEnd := true }

/-- C7 (amended): physics integration keeps the ball and player centres in
`[r, W−r] × [r, H−r]`, and spawn resets place players on spawn points inside
those bounds; but the lurking intercept clamps only to
`[0, W] × [0, H]` (the centre may end nearer than `r` to a wall), and a
blink applies no bound at all (see the counterexample). -/
theorem boundary_amended :
    (∀ dragFactor dt s, inPitch BALL_RADIUS
        (integrateBall dragFactor dt s).x (integrateBall dragFactor dt s).y) ∧
    (∀ dragFactor speedScale dt speedMultiplier input s,
        inPitch PLAYER_RADIUS
          (integratePlayer dragFactor speedScale dt speedMultiplier input s).x
          (integratePlayer dragFactor speedScale dt speedMultiplier input s).y) ∧
    (∀ now b p tm rad pid r, lurkIntercept now b p tm rad pid = some r →
        0 ≤ r.2.1.x ∧ r.2.1.x ≤ WORLD_WIDTH ∧ 0 ≤ r.2.1.y ∧ r.2.1.y ≤ WORLD_HEIGHT) ∧
    (∀ roster a, a ∈ resetAllPlayersAction roster → inPitch PLAYER_RADIUS a.2.1 a.2.2) := by
  have hxw : BALL_RADIUS ≤ WORLD_WIDTH - BALL_RADIUS := by
    norm_num [BALL_RADIUS, WORLD_WIDTH]
  have hyw : BALL_RADIUS ≤ WORLD_HEIGHT - BALL_RADIUS := by
    norm_num [BALL_RADIUS, WORLD_HEIGHT]
  have hxp : PLAYER_RADIUS ≤ WORLD_WIDTH - PLAYER_RADIUS := by
    norm_num [PLAYER_RADIUS, WORLD_WIDTH]
  have hyp' : PLAYER_RADIUS ≤ WORLD_HEIGHT - PLAYER_RADIUS := by
    norm_num [PLAYER_RADIUS, WORLD_HEIGHT]
  refine ⟨?_, ?_, ?_, ?_⟩
  · intro dragFactor dt s
    unfold integrateBall inPitch
    dsimp only
    exact ⟨(clampPair_bounds _ _ _ _ _ _ hxw).1, (clampPair_bounds _ _ _ _ _ _ hxw).2,
           (clampPair_bounds _ _ _ _ _ _ hyw).1, (clampPair_bounds _ _ _ _ _ _ hyw).2⟩
  · intro dragFactor speedScale dt speedMultiplier input s
    unfold integratePlayer inPitch
    dsimp only
    exact ⟨(clampPair_bounds _ _ _ _ _ _ hxp).1, (clampPair_bounds _ _ _ _ _ _ hxp).2,
           (clampPair_bounds _ _ _ _ _ _ hyp').1, (clampPair_bounds _ _ _ _ _ _ hyp').2⟩
  · intro now b p tm rad pid r h
    simp only [lurkIntercept] at h
    split_ifs at h
    all_goals try exact Option.noConfusion h
    all_goals injection h with h4
    all_goals subst h4
    all_goals dsimp only
    all_goals exact ⟨le_max_left _ _,
      max_le (by norm_num [WORLD_WIDTH]) (min_le_right _ _),
      le_max_left _ _,
      max_le (by norm_num [WORLD_HEIGHT]) (min_le_right _ _)⟩
  · intro roster a ha
    simp only [resetAllPlayersAction, List.mem_append, List.mem_map] at ha
    have hLr : RED_TEAM_SPAWNS.length = 6 := rfl
    have hLb : BLUE_TEAM_SPAWNS.length = 6 := rfl
    rcases ha with ⟨p, hp, rfl⟩ | ⟨p, hp, rfl⟩
    · dsimp only
      rw [hLr]
      have hj6 : p.1 % 6 < 6 := Nat.mod_lt _ (by norm_num)
      set j := p.1 % 6 with hj
      interval_cases j <;>
        norm_num [RED_TEAM_SPAWNS, List.getD, inPitch, PLAYER_RADIUS, WORLD_WIDTH,
          WORLD_HEIGHT]
    · dsimp only
      rw [hLb]
      have hj6 : p.1 % 6 < 6 := Nat.mod_lt _ (by norm_num)
      set j := p.1 % 6 with hj
      interval_cases j <;>
        norm_num [BLUE_TEAM_SPAWNS, List.getD, inPitch, PLAYER_RADIUS, WORLD_WIDTH,
          WORLD_HEIGHT]

/-- Witness for `boundary_amended`: the single red player of a one-player
roster is teleported to the first red spawn, which is inside the pitch. -/
theorem boundary_amended_witness : inPitch PLAYER_RADIUS 1413 515 :=
  boundary_amended.2.2.2 [("a", some Team.red)] ("a", (1413, 515))
    (by norm_num [resetAllPlayersAction, RED_TEAM_SPAWNS, BLUE_TEAM_SPAWNS, List.getD])

/-- A concrete blink: on-pitch red player at `(3400, 800)` facing RIGHT, off
cooldown, in the lobby. -/
def blinkCexEnv : BlinkEnv :=
  { now := 100000, playerId := "c1", gameStatus := GameStatus.LOBBY,
    assignedSkill := none, lastUsed := 0, team := some Team.red,
    physics := some ⟨"c1", 3400, 800, 0, 0, 30, some Team.red, none⟩,
    facing := some "RIGHT", collisionRects := [] }

/-- C7 counterexample: the blink from `(3400, 800)` facing RIGHT lands the
player at `x = 3800`, outside `[30, 3490]` — the blink branch never clamps
on-pitch players to the world bounds. -/
theorem boundary_counterexample :
    (handleActivateSkillBlink blinkCexEnv).map (fun o => o.physics.map (fun p => p.x)) =
      some (some 3800) ∧
    ¬ ((3800 : ℚ) ≤ WORLD_WIDTH - PLAYER_RADIUS) := by
  constructor
  · have hface : getFacingVector "RIGHT" = (1, 0) := by rfl
    norm_num [handleActivateSkillBlink, blinkCexEnv, hface, checkBlinkCollision,
      blinkDistance, blinkCooldownMs, blinkPreventWallClip]
  · norm_num [WORLD_WIDTH, PLAYER_RADIUS]

/-- C10: a cooldown-gated skill records its cooldown timestamp before the
effect; a blink activation that passes the gates but has no
`facingDirection` (or no activator physics record) still records `now` as
the cooldown timestamp, emits `skill:activated` (and schedules
`skill:ended`), and leaves the player's physics untouched. -/
theorem blink_cooldown_before_effect (env : BlinkEnv) (out : BlinkOutcome)
    (h : handleActivateSkillBlink env = some out)
    (hf : env.facing = none ∨ env.physics = none) :
    out.cooldownSetTo = env.now ∧ out.physics = env.physics ∧
    out.events = [Ev.skillActivated env.playerId "blink" blinkDurationMs] ∧
    out.scheduledEnd = true := by
  rcases ht : env.team with _ | tm <;>
    simp only [handleActivateSkillBlink, ht] at h
  · exact Option.noConfusion h
  · split_ifs at h with hA hB hC hD
    all_goals try exact Option.noConfusion h
    all_goals
      rcases hp : env.physics with _ | pp <;>
      rcases hff : env.facing with _ | fc <;>
      rw [hp, hff] at h <;>
      first
        | (rcases hf with hf0 | hf0
           · rw [hf0] at hff
             exact Option.noConfusion hff
           · rw [hf0] at hp
             exact Option.noConfusion hp)
        | (injection h with h4
           subst h4
           exact ⟨rfl, rfl, rfl, rfl⟩)

/-- The blink-without-facing environment used by the C10 witness. -/
def blinkWitEnv : BlinkEnv :=
  { now := 50000, playerId := "b1", gameStatus := GameStatus.LOBBY,
    assignedSkill := none, lastUsed := 0, team := some Team.red,
    physics := some ⟨"b1", 1000, 800, 5, 5, 30, some Team.red, none⟩,
    facing := none, collisionRects := [] }

/-- The outcome the handler computes for `blinkWitEnv`. -/
def blinkWitOut : BlinkOutcome :=
  ⟨50000, some ⟨"b1", 1000, 800, 5, 5, 30, some Team.red, none⟩,
   [Ev.skillActivated "b1" "blink" 0], true⟩

/-- Witness for `blink_cooldown_before_effect`: the concrete facing-less
blink consumes the cooldown, emits `skill:activated`, and leaves the player
untouched. -/
theorem blink_cooldown_before_effect_witness :
    blinkWitOut.cooldownSetTo = blinkWitEnv.now ∧
    blinkWitOut.physics = blinkWitEnv.physics ∧
    blinkWitOut.events = [Ev.skillActivated blinkWitEnv.playerId "blink" blinkDurationMs] ∧
    blinkWitOut.scheduledEnd = true :=
  blink_cooldown_before_effect blinkWitEnv blinkWitOut
    (by norm_num [handleActivateSkillBlink, blinkWitEnv, blinkWitOut, blinkCooldownMs,
      blinkDurationMs])
    (Or.inl rfl)

/-! ## Goal detection and scoring (claim C6) -/

/-- The score record `{red, blue}`. -/
structure Score where
  red : ℕ
  blue : ℕ
  deriving DecidableEq, Repr

/-- The `PlayerMatchStats` of `soccer.service.ts`. -/
structure PlayerMatchStats where
  goals : ℕ
  assists : ℕ
  interceptions : ℕ
  deriving DecidableEq, Repr

/-- A goal zone `{name, team, x, y, width, height}`. -/
structure GoalZone where
  name : String
  team : Team
  x : ℚ
  y : ℚ
  width : ℚ
  height : ℚ
  deriving DecidableEq, Repr

/-- The `checkBallGoalCollision`: the ball centre lies inside the zone rectangle
(inclusive on all four sides). -/
def checkBallGoalCollision (ball : Ball) (goal : GoalZone) : Prop :=
  goal.x ≤ ball.x ∧ ball.x ≤ goal.x + goal.width ∧
  goal.y ≤ ball.y ∧ ball.y ≤ goal.y + goal.height

instance (b : Ball) (g : GoalZone) : Decidable (checkBallGoalCollision b g) := by
  unfold checkBallGoalCollision
  infer_instance

/-- Pointwise update of a stats table (the source's
`playerMatchStats.set(id, v)`; reads go through
`playerMatchStats.get(id) || {0,0,0}`, so the table is modelled as the
total function it denotes). -/
def statUpdate (stats : String → PlayerMatchStats) (id : String)
    (v : PlayerMatchStats) : String → PlayerMatchStats :=
  fun x => if x = id then v else stats x

/-- The slice of state the goal branch of `updateBallPhysics` reads:
the score, the stats table, `getPlayerPositions()` restricted to presence
and the `team` field (`positions id = some t?` means the player is in the
map with team field `t?`), the `hasScoredGoal` latch, and the ball. -/
structure GoalCtx where
  score : Score
  stats : String → PlayerMatchStats
  positions : String → Option (Option Team)
  hasScoredGoal : Bool
  ball : Ball

/-- What the goal branch writes: the bumped score, credited stats, the ball
(UNCHANGED — in particular its velocity), the `hasScoredGoal` latch, the
emitted messages, and the 3000 ms delay of the scheduled ball/player
resets. -/
structure GoalOutcome where
  score : Score
  stats : String → PlayerMatchStats
  ball : Ball
  hasScoredGoal : Bool
  events : List Ev
  resetScheduledDelayMs : Option ℤ

/-- The goal branch of `updateBallPhysics` for one zone: fires when the ball
centre is inside the zone and no goal-reset is pending.  The team opposite
the zone's team scores; `lastTouchId` is credited a goal; `previousTouchId`
is credited an assist only when both players are in the positions map with
equal team fields; `goal:scored` is emitted; `resetBall()` and
`resetAllPlayerPositions()` are SCHEDULED 3000 ms out (setting the
`hasScoredGoal` latch immediately); a ball snapshot is broadcast.  The ball
itself — including its velocity — is not modified here. -/
def processGoalZone (ctx : GoalCtx) (g : GoalZone) : Option GoalOutcome :=
  if checkBallGoalCollision ctx.ball g ∧ ctx.hasScoredGoal = false then
    let scoringTeam := if g.team = Team.red then Team.blue else Team.red
    let score1 : Score :=
      if scoringTeam = Team.red then { red := ctx.score.red + 1, blue := ctx.score.blue }
      else { red := ctx.score.red, blue := ctx.score.blue + 1 }
    let stats1 :=
      match ctx.ball.lastTouchId with
      | some scorer =>
        let s0 := ctx.stats scorer
        let afterGoal := statUpdate ctx.stats scorer { s0 with goals := s0.goals + 1 }
        (match ctx.ball.previousTouchId with
         | some prev =>
           (match ctx.positions scorer, ctx.positions prev with
            | some scorerTeam, some assisterTeam =>
              if scorerTeam = assisterTeam then
                let a0 := afterGoal prev
                statUpdate afterGoal prev { a0 with assists := a0.assists + 1 }
              else afterGoal
            | _, _ => afterGoal)
         | none => afterGoal)
      | none => ctx.stats
    some
      { score := score1, stats := stats1, ball := ctx.ball, hasScoredGoal := true,
        events := [Ev.goalScored scoringTeam,
          Ev.ballStateSnap ctx.ball.x ctx.ball.y ctx.ball.vx ctx.ball.vy ctx.ball.sequence],
        resetScheduledDelayMs := some 3000 }
  else none

/-- C6 (amended): when the ball lies in a goal zone and no reset is pending,
the opposite team's score is incremented, the last toucher is credited a
goal, the previous toucher is credited an assist exactly when both are in
the positions map with the same team, `goal:scored` is emitted, and the
resets (ball to centre with zero velocity and bumped sequence, players to
team spawns) are scheduled 3 seconds out — but the ball, and in particular
its velocity, is left UNCHANGED at goal time (it is only zeroed by the
deferred reset). -/
theorem goal_branch_amended (ctx : GoalCtx) (g : GoalZone) (out : GoalOutcome)
    (scorer prev : String)
    (h : processGoalZone ctx g = some out)
    (hlast : ctx.ball.lastTouchId = some scorer)
    (hprev : ctx.ball.previousTouchId = some prev)
    (hne : prev ≠ scorer) :
    (g.team = Team.red → out.score = ⟨ctx.score.red, ctx.score.blue + 1⟩) ∧
    (g.team ≠ Team.red → out.score = ⟨ctx.score.red + 1, ctx.score.blue⟩) ∧
    (out.stats scorer).goals = (ctx.stats scorer).goals + 1 ∧
    ((∃ tv, ctx.positions scorer = some tv ∧ ctx.positions prev = some tv) →
       (out.stats prev).assists = (ctx.stats prev).assists + 1) ∧
    ((¬ ∃ tv, ctx.positions scorer = some tv ∧ ctx.positions prev = some tv) →
       (out.stats prev).assists = (ctx.stats prev).assists) ∧
    out.ball = ctx.ball ∧
    out.hasScoredGoal = true ∧
    out.resetScheduledDelayMs = some 3000 ∧
    Ev.goalScored (if g.team = Team.red then Team.blue else Team.red) ∈ out.events ∧
    (resetBallAction out.ball).x = WORLD_WIDTH / 2 ∧
    (resetBallAction out.ball).y = WORLD_HEIGHT / 2 ∧
    (resetBallAction out.ball).vx = 0 ∧ (resetBallAction out.ball).vy = 0 ∧
    (resetBallAction out.ball).sequence = out.ball.sequence + 1 := by
  have hne2 : ¬ (scorer = prev) := fun hh => hne hh.symm
  simp only [processGoalZone] at h
  by_cases hfire : checkBallGoalCollision ctx.ball g ∧ ctx.hasScoredGoal = false
  · rw [if_pos hfire] at h
    injection h with h4
    subst h4
    refine ⟨fun hgt => ?_, fun hgt => ?_, ?_, fun hsame => ?_, fun hdiff => ?_,
      rfl, rfl, rfl, ?_, rfl, rfl, rfl, rfl, rfl⟩
    · simp [hgt]
    · simp [hgt]
    · simp only [hlast, hprev]
      rcases hps : ctx.positions scorer with _ | tv1 <;>
        rcases hpp : ctx.positions prev with _ | tv2
      · simp [statUpdate, hne2, hne]
      · simp [statUpdate, hne2, hne]
      · simp [statUpdate, hne2, hne]
      · by_cases htv : tv1 = tv2 <;> simp [statUpdate, hne2, hne, htv]
    · obtain ⟨tv, h1, h2⟩ := hsame
      simp only [hlast, hprev, h1, h2]
      simp [statUpdate, hne2, hne]
    · simp only [hlast, hprev]
      rcases hps : ctx.positions scorer with _ | tv1 <;>
        rcases hpp : ctx.positions prev with _ | tv2
      · simp [statUpdate, hne2, hne]
      · simp [statUpdate, hne2, hne]
      · simp [statUpdate, hne2, hne]
      · by_cases htv : tv1 = tv2
        · exact absurd ⟨tv1, hps, by rw [hpp, htv]⟩ hdiff
        · simp [statUpdate, hne2, hne, htv]
    · exact List.mem_cons_self _ _
  · rw [if_neg hfire] at h
    exact Option.noConfusion h

/-- A zone of the red goal and a moving ball inside it, nobody credited. -/
def goalCexZone : GoalZone := ⟨"red-goal", Team.red, 0, 600, 200, 400⟩

/-- Concrete context for the C6 counterexample: ball at `(100, 800)` with
velocity `(500, 0)`, inside `goalCexZone`, no reset pending. -/
def goalCexCtx : GoalCtx :=
  { score := ⟨0, 0⟩, stats := fun _ => ⟨0, 0, 0⟩, positions := fun _ => none,
    hasScoredGoal := false,
    ball := ⟨100, 800, 500, 0, 3, none, none, 0, true⟩ }

/-- C6 counterexample: the goal fires, but the ball's velocity right after
the goal branch is still `500`, not `0` — the claim that the velocity is
zeroed "at that moment" is false; zeroing happens only in the 3-second
deferred reset. -/
theorem goal_velocity_counterexample :
    (processGoalZone goalCexCtx goalCexZone).map (fun o => o.ball.vx) = some 500 ∧
    (500 : ℚ) ≠ 0 := by
  constructor
  · norm_num [processGoalZone, goalCexCtx, goalCexZone, checkBallGoalCollision]
  · norm_num

/-- A blue-goal zone for the C6 witness. -/
def goalWitZone : GoalZone := ⟨"blue-goal", Team.blue, 3300, 600, 200, 400⟩

/-- Context for the C6 witness: scorer `"s"` and assister `"p"`, both team
red, ball inside the blue goal. -/
def goalWitCtx : GoalCtx :=
  { score := ⟨0, 0⟩, stats := fun _ => ⟨0, 0, 0⟩,
    positions := fun id =>
      if id = "s" then some (some Team.red)
      else if id = "p" then some (some Team.red) else none,
    hasScoredGoal := false,
    ball := ⟨3400, 800, 200, 0, 9, some "s", some "p", 0, true⟩ }

/-- Witness for `goal_branch_amended` at the concrete scored goal. -/
theorem goal_branch_amended_witness :
    ∃ out, processGoalZone goalWitCtx goalWitZone = some out ∧
      out.hasScoredGoal = true := by
  rcases hout : processGoalZone goalWitCtx goalWitZone with _ | out
  · have hs : (processGoalZone goalWitCtx goalWitZone).isSome = true := by
      norm_num [processGoalZone, goalWitCtx, goalWitZone, checkBallGoalCollision]
    rw [hout] at hs
    simp at hs
  · exact ⟨out, rfl,
      (goal_branch_amended goalWitCtx goalWitZone out "s" "p" hout rfl rfl
        (by decide)).2.2.2.2.2.2.1⟩

/-! ## The shared kick cooldown (claim C9) -/

/-- One `ball:kick` request as seen by the cooldown gate: who sent it, the
`Date.now()` at processing, and whether every non-cooldown validation
(kicker presence, team, distance) passes. -/
structure KickAttempt where
  playerId : String
  t : ℤ
  otherwiseValid : Bool
  deriving DecidableEq, Repr

/-- The cooldown gate of `handleBallKick` on the single shared
`lastKickTime`: a request within `KICK_COOLDOWN_MS` of the last accepted
kick is dropped — the gate never reads `playerId`; on acceptance
`lastKickTime := now`. -/
def kickGateStep (lastKickTime : ℤ) (a : KickAttempt) : ℤ × Bool :=
  if a.t - lastKickTime < KICK_COOLDOWN_MS then (lastKickTime, false)
  else if a.otherwiseValid then (a.t, true) else (lastKickTime, false)

/-- Processing a sequence of kick requests through the shared gate,
collecting the accepted ones. -/
def acceptedKicks (lastKickTime : ℤ) : List KickAttempt → List KickAttempt
  | [] => []
  | a :: rest =>
    match kickGateStep lastKickTime a with
    | (lk1, true) => a :: acceptedKicks lk1 rest
    | (lk1, false) => acceptedKicks lk1 rest

/-- The `kickGateStep` either accepts (updating `lastKickTime` to the request
time, which is then at least `lastKickTime + KICK_COOLDOWN_MS`) or leaves
the state unchanged. -/
theorem kickGateStep_cases (lk : ℤ) (a : KickAttempt) :
    (kickGateStep lk a = (a.t, true) ∧ lk + KICK_COOLDOWN_MS ≤ a.t) ∨
    kickGateStep lk a = (lk, false) := by
  unfold kickGateStep
  split_ifs with h1 h2
  · exact Or.inr rfl
  · exact Or.inl ⟨rfl, by linarith [not_lt.1 h1]⟩
  · exact Or.inr rfl

/-- Every accepted kick is at least a cooldown after the initial
`lastKickTime`, and consecutive accepted kicks (by any players) are at least
a cooldown apart. -/
theorem acceptedKicks_bounds (attempts : List KickAttempt) : ∀ lk : ℤ,
    (∀ x ∈ acceptedKicks lk attempts, lk + KICK_COOLDOWN_MS ≤ x.t) ∧
    List.Pairwise (fun a b => a.t + KICK_COOLDOWN_MS ≤ b.t) (acceptedKicks lk attempts) := by
  have hC : (0 : ℤ) ≤ KICK_COOLDOWN_MS := by norm_num [KICK_COOLDOWN_MS]
  induction attempts with
  | nil =>
    intro lk
    exact ⟨by simp [acceptedKicks], by simp [acceptedKicks]⟩
  | cons a rest ih =>
    intro lk
    unfold acceptedKicks
    rcases kickGateStep_cases lk a with ⟨heq, hge⟩ | heq <;> rw [heq]
    · constructor
      · intro x hx
        rcases List.mem_cons.1 hx with rfl | hx
        · exact hge
        · have hb := (ih a.t).1 x hx
          linarith
      · exact List.Pairwise.cons (fun b hb => (ih a.t).1 b hb) (ih a.t).2
    · exact ih lk

/-- C9: the kick cooldown is global.  (i) Any two accepted kicks in a
request sequence — by the same or different players — are at least
`KICK_COOLDOWN_MS` (300 ms) apart, because one shared `lastKickTime` gates
all requests.  (ii) A request arriving within 300 ms of the last accepted
kick is silently rejected, whatever its `playerId` and however valid it is
otherwise. -/
theorem kickCooldown_global :
    (∀ (lastKickTime : ℤ) (attempts : List KickAttempt),
        List.Pairwise (fun a b => a.t + KICK_COOLDOWN_MS ≤ b.t)
          (acceptedKicks lastKickTime attempts)) ∧
    (∀ (lastKickTime : ℤ) (a : KickAttempt),
        a.t - lastKickTime < KICK_COOLDOWN_MS →
          kickGateStep lastKickTime a = (lastKickTime, false)) :=
  ⟨fun lk atts => (acceptedKicks_bounds atts lk).2,
   fun lk a h => by unfold kickGateStep; rw [if_pos h]⟩

/-- Witness for `kickCooldown_global`: an otherwise-valid kick by player
`"B"` 100 ms after player `"A"`'s accepted kick at `t = 1000` is rejected. -/
theorem kickCooldown_global_witness :
    kickGateStep 1000 ⟨"B", 1100, true⟩ = (1000, false) :=
  kickCooldown_global.2 1000 ⟨"B", 1100, true⟩ (by norm_num [KICK_COOLDOWN_MS])

/-! ## The physics-loop singleton guard (claim C1) -/

/-- The loop-related static state of `SoccerService`: the connection count,
the `updateInterval` guard field, and how many `setImmediate` physics-loop
chains are actually running in the process. -/
structure LoopState where
  activeConnections : ℤ
  updateInterval : Option Unit
  runningLoops : ℕ
  deriving DecidableEq, Repr

/-- Process start: no connections, `updateInterval = null`, no loops. -/
def initLoopState : LoopState := ⟨0, none, 0⟩

/-- The `SoccerService` constructor: increments `activeConnections` and,
when `updateInterval` is unset, calls `startPhysicsLoop` — which kicks off a
self-rescheduling `setImmediate` chain but NEVER assigns `updateInterval`,
so the guard stays unset. -/
def constructorStep (s : LoopState) : LoopState :=
  { activeConnections := s.activeConnections + 1,
    updateInterval := s.updateInterval,
    runningLoops :=
      if s.updateInterval = none then s.runningLoops + 1 else s.runningLoops }

/-- The `cleanup()` on disconnect: decrements `activeConnections`; the
`clearInterval` branch requires `updateInterval` non-null (which never
happens), and even that would not stop the `setImmediate` chain, whose
recursion is unconditional — so no loop ever stops. -/
def cleanupStep (s : LoopState) : LoopState :=
  let ac := s.activeConnections - 1
  if ac = 0 ∧ s.updateInterval ≠ none then
    { activeConnections := ac, updateInterval := none, runningLoops := s.runningLoops }
  else
    { activeConnections := ac, updateInterval := s.updateInterval,
      runningLoops := s.runningLoops }

/-- C1 is a code bug: `startPhysicsLoop` never sets the `updateInterval`
guard, so every constructed `SoccerService` starts one more physics loop —
after two connections two loops run — and `cleanup` never stops any loop
(its guard is never satisfiable, and it decrements the count to 0 while
both loops keep running). -/
theorem loop_singleton_code_bug :
    (constructorStep initLoopState).runningLoops = 1 ∧
    (constructorStep (constructorStep initLoopState)).runningLoops = 2 ∧
    (cleanupStep (cleanupStep
        (constructorStep (constructorStep initLoopState)))).activeConnections = 0 ∧
    (cleanupStep (cleanupStep
        (constructorStep (constructorStep initLoopState)))).runningLoops = 2 ∧
    (∀ s, (cleanupStep s).runningLoops = s.runningLoops) := by
  refine ⟨rfl, rfl, by decide, by decide, ?_⟩
  intro s
  unfold cleanupStep
  dsimp only
  split_ifs <;> rfl

/-! ## MMR arithmetic (claim C8) -/

/-- The `Rank` of `mmr.service.ts`. -/
inductive Rank where
  | PROSPECT
  | CHALLENGER
  | BREAKER
  | ACE
  | DIVINE
  | EMPEROR
  deriving DecidableEq, Repr

/-- One row of `MmrSystem.THRESHOLDS` (`max = none` models `Infinity`). -/
structure RankThreshold where
  rank : Rank
  min : ℤ
  max : Option ℤ
  deriving DecidableEq, Repr

/-- The `MmrSystem.THRESHOLDS`. -/
def THRESHOLDS : List RankThreshold :=
  [⟨Rank.PROSPECT, 0, some 500⟩, ⟨Rank.CHALLENGER, 501, some 900⟩,
   ⟨Rank.BREAKER, 901, some 1300⟩, ⟨Rank.ACE, 1301, some 1600⟩,
   ⟨Rank.DIVINE, 1601, some 1900⟩, ⟨Rank.EMPEROR, 1901, none⟩]

/-- The `MmrSystem.getRank`. -/
def getRank (mmr : ℤ) : Rank :=
  match THRESHOLDS.find? (fun t =>
      decide (t.min ≤ mmr) &&
      (match t.max with
       | some mx => decide (mmr ≤ mx)
       | none => true)) with
  | some t => t.rank
  | none => Rank.PROSPECT

/-- The `MmrSystem` constants. -/
def INITIAL_MMR : ℤ := 400

def BASE_CHANGE : ℤ := 25

def MVP_BONUS : ℤ := 5

def FEAT_BONUS : ℤ := 2

def MAX_FEATS : ℕ := 3

/-- The `MmrCalculationResult` of `mmr.service.ts`. -/
structure MmrCalculationResult where
  newMMR : ℤ
  mmrDelta : ℤ
  newStreak : ℕ
  newRank : Rank
  deriving DecidableEq, Repr

/-- The `MmrSystem.calculateMatchResult` (`isWin` models
`matchResult === MatchResult.WIN`). -/
def calculateMatchResult (currentMMR : ℤ) (currentStreak : ℕ)
    (isWin isMVP : Bool) (featCount : ℕ) : MmrCalculationResult :=
  let p : ℤ × ℕ :=
    if isWin then
      let newStreak := currentStreak + 1
      let d := BASE_CHANGE
      let d := if newStreak ≥ 5 then d + 10 else if newStreak ≥ 3 then d + 5 else d
      (d, newStreak)
    else (-BASE_CHANGE, 0)
  let withMvp := p.1 + (if isMVP then MVP_BONUS else 0)
  let cappedFeats := min featCount MAX_FEATS
  let mmrDelta := withMvp + (cappedFeats : ℤ) * FEAT_BONUS
  let newMMR := max 0 (currentMMR + mmrDelta)
  ⟨newMMR, mmrDelta, p.2, getRank newMMR⟩

/-- Feat counting in `handleGameEnd`: +1 for goals ≥ 2 (Sniper), +1 for
assists ≥ 2 (Playmaker), +1 for interceptions ≥ 3 (Guardian). -/
def countFeats (stats : PlayerMatchStats) : ℕ :=
  (if stats.goals ≥ 2 then 1 else 0) + (if stats.assists ≥ 2 then 1 else 0) +
  (if stats.interceptions ≥ 3 then 1 else 0)

/-- C8: the MMR delta is +25 on a win (plus a streak bonus of +5 once the
new streak reaches 3, replaced by +10 once it reaches 5), −25 on a loss
(with the streak reset to 0); MVP adds +5 and each feat adds +2 with feats
capped at 3; the new MMR is the old plus the delta, floored at 0; and feats
are one each for goals ≥ 2, assists ≥ 2, interceptions ≥ 3 (hence at most
3). -/
theorem mmr_match_result_spec (currentMMR : ℤ) (currentStreak : ℕ)
    (isWin isMVP : Bool) (featCount : ℕ) :
    (calculateMatchResult currentMMR currentStreak isWin isMVP featCount).mmrDelta =
      (if isWin then
         25 + (if 5 ≤ currentStreak + 1 then 10
               else if 3 ≤ currentStreak + 1 then 5 else 0)
       else -25) +
      (if isMVP then 5 else 0) + (min featCount 3 : ℕ) * 2 ∧
    (calculateMatchResult currentMMR currentStreak isWin isMVP featCount).newStreak =
      (if isWin then currentStreak + 1 else 0) ∧
    (calculateMatchResult currentMMR currentStreak isWin isMVP featCount).newMMR =
      max 0 (currentMMR +
        (calculateMatchResult currentMMR currentStreak isWin isMVP featCount).mmrDelta) ∧
    (∀ st : PlayerMatchStats,
       countFeats st =
         (if 2 ≤ st.goals then 1 else 0) + (if 2 ≤ st.assists then 1 else 0) +
         (if 3 ≤ st.interceptions then 1 else 0) ∧
       countFeats st ≤ 3) := by
  refine ⟨?_, ?_, rfl, fun st => ⟨rfl, ?_⟩⟩
  · unfold calculateMatchResult BASE_CHANGE MVP_BONUS FEAT_BONUS MAX_FEATS
    cases isWin <;> cases isMVP <;> dsimp only <;> split_ifs <;> push_cast <;> ring
  · cases isWin <;> rfl
  · unfold countFeats
    split_ifs <;> norm_num

/-! ## Input ingestion and `lastProcessedSequence` (claim C3) -/

/-- The per-player slice of the input/reconciliation state:
`playerInputQueues.get(id)`, `playerInputs.get(id)`,
`lastProcessedSequence.get(id) || 0`, and the player's team. -/
structure PlayerQueueState where
  queue : List PlayerInputState
  current : Option PlayerInputState
  lps : ℕ
  team : Option Team
  deriving DecidableEq, Repr

/-- The `while (queue.length > 120) queue.shift()` cap of
`updatePlayerInput`: shifting from the front until the length is at most
120 drops exactly the first `length − 120` entries. -/
def capQueue (q : List PlayerInputState) : List PlayerInputState :=
  q.drop (q.length - 120)

/-- The `updatePlayerInput` of `soccer.service.ts` for one player: coalesce a
duplicate of the LAST QUEUED sequence (nothing else is dropped — in
particular inputs with `sequence ≤ lastProcessedSequence` are still
queued), append, cap at 120 dropping the front, and bootstrap the current
input when none is set.  (`input.sequence || 0` is the ℕ `sequence`
field.) -/
def updatePlayerInput (input : PlayerInputState) (s : PlayerQueueState) :
    PlayerQueueState :=
  let dup :=
    match s.queue.getLast? with
    | some lastQueuedInput => lastQueuedInput.sequence == input.sequence
    | none => false
  if dup then s
  else
    let queue1 := capQueue (s.queue ++ [input])
    let current1 :=
      match s.current with
      | none => some input
      | some c => some c
    { queue := queue1, current := current1, lps := s.lps, team := s.team }

/-- The input-consumption slice of one `updatePlayerPhysics` iteration for
one player: shift the queue front (if any) into the current input; if there
is a current input and the player is on team red or blue, the physics step
runs (`integratePlayer`, irrelevant to the sequence bookkeeping modelled
here) and `lastProcessedSequence` is set to the consumed input's sequence;
otherwise `lastProcessedSequence` is untouched. -/
def tickPlayer (s : PlayerQueueState) : PlayerQueueState :=
  let shifted : Option PlayerInputState × List PlayerInputState :=
    match s.queue with
    | [] => (s.current, [])
    | nextInput :: rest => (some nextInput, rest)
  match shifted.1 with
  | none => { s with queue := shifted.2, current := shifted.1 }
  | some input =>
    if s.team ≠ some Team.red ∧ s.team ≠ some Team.blue then
      { s with queue := shifted.2, current := shifted.1 }
    else
      { s with queue := shifted.2, current := shifted.1, lps := input.sequence }

/-- An operation arriving at the server for this player: either a
`playerInputBatch` entry (`updatePlayerInput`) or a physics tick. -/
inductive QueueOp where
  | push (input : PlayerInputState)
  | tick
  deriving DecidableEq, Repr

/-- One operation applied to the per-player state. -/
def stepQueue (s : PlayerQueueState) : QueueOp → PlayerQueueState
  | QueueOp.push i => updatePlayerInput i s
  | QueueOp.tick => tickPlayer s

/-- The pushes in `ops` carry nondecreasing sequence numbers, all at least
`m` (in-order delivery). -/
def monoPushes (m : ℕ) : List QueueOp → Bool
  | [] => true
  | QueueOp.push i :: rest => decide (m ≤ i.sequence) && monoPushes i.sequence rest
  | QueueOp.tick :: rest => monoPushes m rest

/-- A freshly joined red-team player: empty queue, no current input,
`lastProcessedSequence` 0. -/
def initQueueState : PlayerQueueState :=
  { queue := [], current := none, lps := 0, team := some Team.red }

/-- Invariant for the monotonicity proof: the queue is sorted, everything
in flight is bounded by the last pushed sequence `m`, and the current input
dominates `lastProcessedSequence` and is dominated by the queue. -/
def QueueInv (m : ℕ) (s : PlayerQueueState) : Prop :=
  List.Pairwise (· ≤ ·) (s.queue.map (fun i => i.sequence)) ∧
  (∀ q ∈ s.queue, q.sequence ≤ m) ∧
  (match s.current with
   | none => s.queue = [] ∧ s.lps = 0
   | some c =>
     c.sequence ≤ m ∧ s.lps ≤ c.sequence ∧ ∀ q ∈ s.queue, c.sequence ≤ q.sequence)

/-- The `QueueInv` is monotone in the bound. -/
theorem queueInv_mono {m m' : ℕ} (h : m ≤ m') (s : PlayerQueueState)
    (hInv : QueueInv m s) : QueueInv m' s := by
  simp only [QueueInv] at hInv ⊢
  obtain ⟨h1, h2, h3⟩ := hInv
  refine ⟨h1, fun q hq => le_trans (h2 q hq) h, ?_⟩
  rcases hcur : s.current with _ | c <;> simp only [hcur] at h3 ⊢
  · exact h3
  · exact ⟨le_trans h3.1 h, h3.2.1, h3.2.2⟩

/-- Ingestion never touches `lastProcessedSequence`. -/
theorem updatePlayerInput_lps (i : PlayerInputState) (s : PlayerQueueState) :
    (updatePlayerInput i s).lps = s.lps := by
  unfold updatePlayerInput
  dsimp only
  split_ifs <;> rfl

/-- The cap keeps only elements of the original queue. -/
theorem capQueue_subset (q : List PlayerInputState) : ∀ x ∈ capQueue q, x ∈ q :=
  fun x hx => List.drop_subset _ _ hx

/-- The cap preserves sortedness (it drops a prefix). -/
theorem capQueue_pairwise {q : List PlayerInputState}
    (h : List.Pairwise (· ≤ ·) (q.map (fun i => i.sequence))) :
    List.Pairwise (· ≤ ·) ((capQueue q).map (fun i => i.sequence)) := by
  unfold capQueue
  rw [List.map_drop]
  exact List.Pairwise.sublist (List.drop_sublist _ _) h

/-- Ingesting an input whose sequence dominates everything seen so far
preserves the invariant (with the new bound). -/
theorem updatePlayerInput_inv {m : ℕ} (i : PlayerInputState) (s : PlayerQueueState)
    (hInv : QueueInv m s) (hm : m ≤ i.sequence) :
    QueueInv i.sequence (updatePlayerInput i s) := by
  have hInv0 := hInv
  simp only [QueueInv] at hInv
  obtain ⟨h1, h2, h3⟩ := hInv
  unfold updatePlayerInput
  dsimp only
  split_ifs with hdup
  · exact queueInv_mono hm s hInv0
  · have hsub : ∀ x ∈ capQueue (s.queue ++ [i]), x ∈ s.queue ++ [i] := capQueue_subset _
    have hsorted : List.Pairwise (· ≤ ·) ((s.queue ++ [i]).map (fun j => j.sequence)) := by
      rw [List.map_append, List.pairwise_append]
      refine ⟨h1, by simp, ?_⟩
      intro a ha b hb
      simp only [List.map_cons, List.map_nil, List.mem_singleton] at hb
      subst hb
      obtain ⟨j, hj, rfl⟩ := List.mem_map.1 ha
      exact le_trans (h2 j hj) hm
    simp only [QueueInv]
    refine ⟨capQueue_pairwise hsorted, ?_, ?_⟩
    · intro q hq
      rcases List.mem_append.1 (hsub q hq) with hq' | hq'
      · exact le_trans (h2 q hq') hm
      · rw [List.mem_singleton.1 hq']
    · rcases hcur : s.current with _ | c <;> simp only [hcur] at h3 ⊢
      · refine ⟨le_refl _, by rw [h3.2]; exact Nat.zero_le _, ?_⟩
        intro q hq
        rcases List.mem_append.1 (hsub q hq) with hq' | hq'
        · rw [h3.1] at hq'
          exact absurd hq' (List.not_mem_nil q)
        · rw [List.mem_singleton.1 hq']
      · refine ⟨le_trans h3.1 hm, h3.2.1, ?_⟩
        intro q hq
        rcases List.mem_append.1 (hsub q hq) with hq' | hq'
        · exact h3.2.2 q hq'
        · rw [List.mem_singleton.1 hq']
          exact le_trans h3.1 hm

/-- A physics tick preserves the invariant and never decreases
`lastProcessedSequence`. -/
theorem tickPlayer_inv {m : ℕ} (s : PlayerQueueState) (hInv : QueueInv m s) :
    QueueInv m (tickPlayer s) ∧ s.lps ≤ (tickPlayer s).lps := by
  simp only [QueueInv] at hInv
  obtain ⟨h1, h2, h3⟩ := hInv
  unfold tickPlayer
  rcases hq : s.queue with _ | ⟨f, rest⟩
  · dsimp only
    rcases hcur : s.current with _ | c <;> simp only [hcur] at h3 ⊢
    · refine ⟨⟨by simp, by simp, ?_⟩, le_refl _⟩
      simp only [QueueInv] at *
      exact ⟨by simp, h3.2⟩
    · split_ifs with hteam
      · exact ⟨⟨by simp, by simp, h3.1, h3.2.1, by simp⟩, le_refl _⟩
      · exact ⟨⟨by simp, by simp, h3.1, le_refl _, by simp⟩, h3.2.1⟩
  · dsimp only
    have hf : f ∈ s.queue := by
      rw [hq]
      exact List.mem_cons_self f rest
    have hfm : f.sequence ≤ m := h2 f hf
    have hrest_sorted : List.Pairwise (· ≤ ·) (rest.map (fun i => i.sequence)) := by
      have h1' := h1
      rw [hq, List.map_cons] at h1'
      exact h1'.of_cons
    have hfrest : ∀ q ∈ rest, f.sequence ≤ q.sequence := by
      have h1' := h1
      rw [hq, List.map_cons, List.pairwise_cons] at h1'
      intro q hqr
      exact h1'.1 _ (List.mem_map_of_mem _ hqr)
    have hmem : ∀ q ∈ rest, q ∈ s.queue := by
      intro q hqr
      rw [hq]
      exact List.mem_cons_of_mem f hqr
    rcases hcur : s.current with _ | c <;> simp only [hcur] at h3
    · rw [hq] at h3
      exact absurd h3.1 (by simp)
    · have hcf : c.sequence ≤ f.sequence := h3.2.2 f hf
      split_ifs with hteam
      · refine ⟨⟨hrest_sorted, fun q hqr => h2 q (hmem q hqr), ?_⟩, le_refl _⟩
        exact ⟨hfm, le_trans h3.2.1 hcf, hfrest⟩
      · refine ⟨⟨hrest_sorted, fun q hqr => h2 q (hmem q hqr), ?_⟩, le_trans h3.2.1 hcf⟩
        exact ⟨hfm, le_refl _, hfrest⟩

/-- C3 (amended): input ingestion does NOT drop inputs with
`sequence ≤ lastProcessedSequence` — it only coalesces a duplicate of the
last queued sequence and caps the queue at 120 dropping the oldest.
`lastProcessedSequence` is nondecreasing across physics ticks PROVIDED the
player's inputs arrive with nondecreasing sequence numbers; the
counterexample shows an out-of-order (lower) sequence makes it decrease. -/
theorem lps_monotone_of_ordered (ops : List QueueOp) : ∀ (m : ℕ) (s : PlayerQueueState),
    QueueInv m s → monoPushes m ops = true →
    List.Chain' (· ≤ ·) ((List.scanl stepQueue s ops).map (fun t => t.lps)) := by
  induction ops with
  | nil =>
    intro m s hInv hMono
    simp [List.scanl]
  | cons op rest ih =>
    intro m s hInv hMono
    have hstep : ∃ m', QueueInv m' (stepQueue s op) ∧ s.lps ≤ (stepQueue s op).lps ∧
        monoPushes m' rest = true := by
      cases op with
      | push i =>
        simp only [monoPushes, Bool.and_eq_true, decide_eq_true_eq] at hMono
        exact ⟨i.sequence, updatePlayerInput_inv i s hInv hMono.1,
          le_of_eq (updatePlayerInput_lps i s).symm, hMono.2⟩
      | tick =>
        obtain ⟨hInv', hle⟩ := tickPlayer_inv s hInv
        exact ⟨m, hInv', hle, by simpa [monoPushes] using hMono⟩
    obtain ⟨m', hInv', hle, hMono'⟩ := hstep
    have hrest := ih m' (stepQueue s op) hInv' hMono'
    simp only [List.scanl]
    obtain ⟨t, ht⟩ : ∃ t, List.scanl stepQueue (stepQueue s op) rest = stepQueue s op :: t := by
      cases rest <;> simp [List.scanl]
    rw [ht] at hrest ⊢
    rw [List.map_cons, List.map_cons]
    rw [List.map_cons] at hrest
    exact List.chain'_cons.mpr ⟨hle, hrest⟩

/-- Witness for `lps_monotone_of_ordered`: with in-order pushes 2 then 4
the recorded sequence trace `[0, 0, 2, 2, 4]` is nondecreasing. -/
theorem lps_monotone_of_ordered_witness :
    List.Chain' (· ≤ ·) ((List.scanl stepQueue initQueueState
      [QueueOp.push ⟨false, false, false, false, 2⟩, QueueOp.tick,
       QueueOp.push ⟨false, false, false, false, 4⟩, QueueOp.tick]).map (fun t => t.lps)) :=
  lps_monotone_of_ordered
    [QueueOp.push ⟨false, false, false, false, 2⟩, QueueOp.tick,
     QueueOp.push ⟨false, false, false, false, 4⟩, QueueOp.tick]
    0 initQueueState (by refine ⟨List.Pairwise.nil, ?_, rfl, rfl⟩; simp [initQueueState])
    (by decide)

/-- C3 counterexample: ingestion does not drop stale sequences, so pushing
sequence 5, ticking, pushing the out-of-order sequence 3, and ticking again
drives `lastProcessedSequence` 0 → 0 → 5 → 5 → 3: it DECREASES, refuting
"never decreases … for every sequence of playerInput messages including
out-of-order ones". -/
theorem lps_counterexample :
    (List.scanl stepQueue initQueueState
      [QueueOp.push ⟨false, false, false, false, 5⟩, QueueOp.tick,
       QueueOp.push ⟨false, false, false, false, 3⟩, QueueOp.tick]).map (fun t => t.lps) =
      [0, 0, 5, 5, 3] ∧ ¬ ((5 : ℕ) ≤ 3) := by
  decide

end Workdash
